import Mathlib

/-!
Verification of the exam attempt lifecycle and scoring engine of the
upscprep-nest-backend repository.

The TypeScript services (`AttemptService`, `AnswerService` in
`src/exams/services`) are shallowly embedded as pure Lean functions over an
explicit database state.  Prisma queries become list lookups, Prisma writes
become list updates, thrown Nest exceptions become `Except` errors, and the
wall clock (`Date.now`, `new Date()`) becomes an explicit `now : ℤ`
millisecond-timestamp parameter.  Marks and scores are modelled as rationals
(the spec treats them as real numbers with fractional marks).
-/

namespace Upsc

/-- Prisma `AttemptStatus` enum. -/
inductive AttemptStatus
  | IN_PROGRESS
  | SUBMITTED
  | EVALUATED
  | COMPLETED
deriving DecidableEq, Repr

/-- Prisma `QuestionType` enum. -/
inductive QuestionType
  | MCQ
  | DESCRIPTIVE
deriving DecidableEq, Repr

/-- Prisma `PurchaseStatus` enum (values used across the repository). -/
inductive PurchaseStatus
  | PENDING
  | COMPLETED
  | FAILED
  | REFUNDED
deriving DecidableEq, Repr

/-- Prisma `PurchaseType` enum (values used across the repository). -/
inductive PurchaseType
  | COURSE
  | INDIVIDUAL_EXAM
  | TEST_SERIES
deriving DecidableEq, Repr

/-- The Nest exception classes thrown by the embedded services.
`internal` stands for a non-HTTP runtime error thrown by the database
driver (used to model transaction aborts). -/
inductive ApiError
  | notFound
  | forbidden
  | badRequest
  | conflict
  | internal
deriving DecidableEq, Repr

/-- `Exam` row, restricted to the fields the attempt/answer services read. -/
structure Exam where
  id : String
  isActive : Bool
  isFree : Bool
  totalMarks : ℚ
  negativeMarking : Bool
  correctMark : ℚ
  incorrectMark : ℚ
  teacherId : String
  testSeriesId : Option String
deriving DecidableEq, Repr

/-- `Question` row, restricted to the fields the attempt/answer services read. -/
structure Question where
  id : String
  examId : String
  type : QuestionType
  correctOption : Option String
  options : List String
  marks : ℚ
deriving DecidableEq, Repr

/-- `Purchase` row, restricted to the fields entitlement checks read.
`validTill` is a millisecond timestamp. -/
structure Purchase where
  id : String
  userId : String
  status : PurchaseStatus
  type : PurchaseType
  examId : Option String
  testSeriesId : Option String
  validTill : ℤ
deriving DecidableEq, Repr

/-- `Attempt` row.  Nullable columns are `Option`s. -/
structure Attempt where
  id : String
  userId : String
  examId : String
  status : AttemptStatus
  startTime : ℤ
  submitTime : Option ℤ := none
  endTime : Option ℤ := none
  maxScore : ℚ
  score : Option ℚ := none
  percentage : Option ℚ := none
  correctAnswers : Option ℕ := none
  incorrectAnswers : Option ℕ := none
  unattempted : Option ℤ := none
  accuracy : Option ℚ := none
  rank : Option ℕ := none
  timeSpent : Option ℚ := none
  answerSheetUrl : Option String := none
  evaluationStatus : Option String := none
  evaluatedBy : Option String := none
  feedback : Option String := none
deriving DecidableEq, Repr

/-- `Answer` row; unique on `(attemptId, questionId)`. -/
structure Answer where
  id : String
  attemptId : String
  questionId : String
  selectedOption : Option String := none
  answerText : Option String := none
  timeSpent : Option ℚ := none
  marks : Option ℚ := none
  feedback : Option String := none
  evaluatedBy : Option String := none
  evaluatedAt : Option ℤ := none
deriving DecidableEq, Repr

/-- The database state the embedded services read and write. -/
structure Db where
  exams : List Exam
  questions : List Question
  purchases : List Purchase
  attempts : List Attempt
  answers : List Answer
deriving DecidableEq, Repr

/-- JavaScript `x || d` on numbers (`0` is falsy). -/
def jsOr (x d : ℚ) : ℚ := if x = 0 then d else x

/-- JavaScript truthiness of an optional string (`undefined`/`null` and the
empty string are falsy). -/
def strTruthy : Option String → Bool
  | none => false
  | some s => !s.isEmpty

/-- Prisma update-data semantics for an optional scalar: `undefined` leaves
the stored value unchanged, a present value replaces it. -/
def orKeep {α : Type} (old new : Option α) : Option α :=
  match new with
  | some v => some v
  | none => old

/-! ## Entitlement Checker (`AttemptService.checkExamAccess`) -/

/-- `AttemptService.checkExamAccess(userId, examId, isFree)`.

Mirrors the source: a free exam always grants access; otherwise access is
granted when a `COMPLETED` purchase of type `INDIVIDUAL_EXAM` for the exam
exists, or a `COMPLETED` purchase of type `TEST_SERIES` for the exam's
parent test series exists.  Note the source filters purchases only by
`status` and `type` — it never compares `validTill` against the clock. -/
def checkExamAccess (db : Db) (userId examId : String) (isFree : Bool) : Bool :=
  if isFree then
    true
  else
    match db.purchases.find? (fun p =>
        p.userId == userId && p.status == PurchaseStatus.COMPLETED &&
        p.type == PurchaseType.INDIVIDUAL_EXAM && p.examId == some examId) with
    | some _ => true
    | none =>
      match db.exams.find? (fun e => e.id == examId) with
      | some exam =>
        match exam.testSeriesId with
        | some ts =>
          (db.purchases.find? (fun p =>
            p.userId == userId && p.status == PurchaseStatus.COMPLETED &&
            p.type == PurchaseType.TEST_SERIES && p.testSeriesId == some ts)).isSome
        | none => false
      | none => false

/-- The entitlement predicate as §4.1 of the spec words it: free exam, or a
completed purchase that is also non-expired (`validTill` at or after `now`)
covering the exam directly or its parent test series.  Written from the
spec, to be compared with `checkExamAccess`. -/
def specHasAccess (db : Db) (now : ℤ) (userId examId : String) : Bool :=
  match db.exams.find? (fun e => e.id == examId) with
  | none => false
  | some exam =>
    exam.isFree ||
    db.purchases.any (fun p =>
      p.userId == userId && p.status == PurchaseStatus.COMPLETED &&
      decide (now ≤ p.validTill) &&
      (p.type == PurchaseType.INDIVIDUAL_EXAM && p.examId == some examId ||
       p.type == PurchaseType.TEST_SERIES && exam.testSeriesId != none &&
         p.testSeriesId == exam.testSeriesId))

/-! ## Attempt creation (`AttemptService.create`) -/

/-- `CreateAttemptDto` (fields the service reads; `accessType` and
`enrollmentId` are validated by the DTO but never read by
`AttemptService.create`). -/
structure CreateAttemptDto where
  examId : String
  status : Option AttemptStatus := none
  timeSpent : Option ℚ := none
deriving DecidableEq, Repr

/-- `AttemptService.create(userId, dto)`.  `now` is `Date.now()` in
milliseconds and `newId` the id Prisma generates for the new row.

Mirrors the source: looks up an active exam, checks entitlement
(`ForbiddenException` otherwise), rejects a duplicate `IN_PROGRESS` attempt
with `BadRequestException`, then inserts the attempt with
`status = dto.status || IN_PROGRESS`, `maxScore` snapshotted from the exam
and `startTime = now + 2 minutes`. -/
def attemptCreate (db : Db) (now : ℤ) (userId : String) (dto : CreateAttemptDto)
    (newId : String) : Except ApiError (Db × Attempt) :=
  match db.exams.find? (fun e => e.id == dto.examId && e.isActive) with
  | none => .error .notFound
  | some exam =>
    if !checkExamAccess db userId exam.id exam.isFree then
      .error .forbidden
    else if (db.attempts.find? (fun a =>
        a.userId == userId && a.examId == exam.id &&
        a.status == AttemptStatus.IN_PROGRESS)).isSome then
      .error .badRequest
    else
      let att : Attempt :=
        { id := newId
          userId := userId
          examId := exam.id
          status := dto.status.getD AttemptStatus.IN_PROGRESS
          timeSpent := dto.timeSpent
          maxScore := exam.totalMarks
          startTime := now + 2 * 60 * 1000 }
      .ok ({ db with attempts := db.attempts ++ [att] }, att)

/-! ## Scoring Engine (`AttemptService.calculateScore`) -/

/-- Intermediate result of `calculateScore`. -/
structure ScoreData where
  score : ℚ
  correctAnswers : ℕ
  incorrectAnswers : ℕ
  unattempted : ℤ
  accuracy : ℚ
deriving DecidableEq, Repr

/-- The body of the `answers.forEach` loop in `calculateScore`: the
`(score, correctAnswers, incorrectAnswers)` deltas one answer contributes.

MCQ branch: a truthy `selectedOption` equal to the question's
`correctOption` adds `question.marks || 1` and one correct; otherwise one
incorrect plus, under negative marking, `exam.incorrectMark || 0`.
DESCRIPTIVE branch: an evaluated answer adds its `marks`, counted correct
when `marks >= question.marks / 2`. -/
def answerContrib (exam : Exam) (q : Question) (a : Answer) : ℚ × ℕ × ℕ :=
  if q.type == QuestionType.MCQ && strTruthy a.selectedOption then
    if a.selectedOption == q.correctOption then
      (jsOr q.marks 1, 1, 0)
    else
      (if exam.negativeMarking then jsOr exam.incorrectMark 0 else 0, 0, 1)
  else if q.type == QuestionType.DESCRIPTIVE && a.marks.isSome then
    (a.marks.getD 0, if a.marks.getD 0 ≥ q.marks / 2 then (1, 0) else (0, 1))
  else
    (0, 0, 0)

/-- The body of `AttemptService.calculateScore(exam, attemptId)`:
folds `answerContrib` over the attempt's answers (joined with their
questions), clamps the score at `0`, sets
`unattempted = examQuestions.length - answers.length` and
`accuracy = correct / (correct + incorrect) * 100` (or `0` when no answer
was counted correct). -/
def computeScoreData (db : Db) (exam : Exam) (attemptId : String) : ScoreData :=
  let answers := db.answers.filter (fun a => a.attemptId == attemptId)
  let examQuestions := db.questions.filter (fun q => q.examId == exam.id)
  let r := answers.foldl
    (fun (acc : ℚ × ℕ × ℕ) a =>
      match db.questions.find? (fun q => q.id == a.questionId) with
      | some q =>
        let d := answerContrib exam q a
        (acc.1 + d.1, acc.2.1 + d.2.1, acc.2.2 + d.2.2)
      | none => acc)
    (0, 0, 0)
  { score := max 0 r.1
    correctAnswers := r.2.1
    incorrectAnswers := r.2.2
    unattempted := (examQuestions.length : ℤ) - (answers.length : ℤ)
    accuracy :=
      if r.2.1 > 0 then ((r.2.1 : ℚ) / ((r.2.1 : ℚ) + (r.2.2 : ℚ))) * 100
      else 0 }

/-- The `try`/`catch` wrapper: `null` when the body throws (`fail`),
otherwise the computed score data. -/
def calculateScore (db : Db) (exam : Exam) (attemptId : String) (fail : Bool) :
    Option ScoreData :=
  if fail then none else some (computeScoreData db exam attemptId)

/-! ## Attempt update (`AttemptService.update`) -/

/-- `UpdateAttemptDto` (fields the service reads). -/
structure UpdateAttemptDto where
  status : Option AttemptStatus := none
  timeSpent : Option ℚ := none
  feedback : Option String := none
  score : Option ℚ := none
  evaluationStatus : Option String := none
  correctAnswers : Option ℕ := none
  incorrectAnswers : Option ℕ := none
  unattempted : Option ℤ := none
  accuracy : Option ℚ := none
  rank : Option ℕ := none
  answerSheetUrl : Option String := none
deriving DecidableEq, Repr

/-- Replace the attempt row with the given id. -/
def replaceAttempt (l : List Attempt) (id : String) (att : Attempt) : List Attempt :=
  l.map (fun a => if a.id == id then att else a)

/-- The `updateData` object the student branch of `AttemptService.update`
builds for a valid status `s` (`SUBMITTED` or `COMPLETED`), applied to the
existing attempt: the status with its `submitTime`/`endTime` stamp, an
overwriting `timeSpent`, and — on submission with score data available —
the scoring result plus `percentage = score / maxScore * 100`. -/
def studentPatch (db : Db) (exam : Exam) (now : ℤ) (existing : Attempt)
    (dto : UpdateAttemptDto) (s : AttemptStatus) (scoreFail : Bool) : Attempt :=
  let sd :=
    if s == AttemptStatus.SUBMITTED then calculateScore db exam existing.id scoreFail
    else none
  { existing with
    status := s
    submitTime := if s == AttemptStatus.SUBMITTED then some now else existing.submitTime
    endTime := if s == AttemptStatus.COMPLETED then some now else existing.endTime
    timeSpent := orKeep existing.timeSpent dto.timeSpent
    score := match sd with | some d => some d.score | none => existing.score
    correctAnswers :=
      match sd with | some d => some d.correctAnswers | none => existing.correctAnswers
    incorrectAnswers :=
      match sd with | some d => some d.incorrectAnswers | none => existing.incorrectAnswers
    unattempted :=
      match sd with | some d => some d.unattempted | none => existing.unattempted
    accuracy := match sd with | some d => some d.accuracy | none => existing.accuracy
    percentage :=
      match sd with
      | some d => some (d.score / existing.maxScore * 100)
      | none => existing.percentage }

/-- The `updateData` object the teacher branch of `AttemptService.update`
builds, applied to the existing attempt: evaluation fields when supplied,
`percentage` recomputed from `maxScore` when `score` is supplied, and a
status of `EVALUATED` also stamps `evaluatedBy`. -/
def teacherPatch (existing : Attempt) (userId : String)
    (dto : UpdateAttemptDto) : Attempt :=
  { existing with
    evaluationStatus := orKeep existing.evaluationStatus dto.evaluationStatus
    feedback := orKeep existing.feedback dto.feedback
    score := orKeep existing.score dto.score
    percentage :=
      match dto.score with
      | some sc => some (sc / existing.maxScore * 100)
      | none => existing.percentage
    status :=
      if dto.status == some AttemptStatus.EVALUATED then AttemptStatus.EVALUATED
      else existing.status
    evaluatedBy :=
      if dto.status == some AttemptStatus.EVALUATED then some userId
      else existing.evaluatedBy
    correctAnswers := orKeep existing.correctAnswers dto.correctAnswers
    incorrectAnswers := orKeep existing.incorrectAnswers dto.incorrectAnswers
    unattempted := orKeep existing.unattempted dto.unattempted
    accuracy := orKeep existing.accuracy dto.accuracy
    rank := orKeep existing.rank dto.rank
    answerSheetUrl := orKeep existing.answerSheetUrl dto.answerSheetUrl }

/-- `AttemptService.update(id, userId, dto, isTeacher)`.

`scoreFail` is threaded into `calculateScore` to model a scoring-engine
exception.  Mirrors the source: NotFound for a missing attempt, Forbidden
when a student touches a foreign attempt; the student branch accepts only a
`SUBMITTED`/`COMPLETED` status (BadRequest otherwise) and applies
`studentPatch`; a status-less student update writes only `timeSpent`; the
teacher branch applies `teacherPatch`. -/
def attemptUpdate (db : Db) (now : ℤ) (id userId : String) (dto : UpdateAttemptDto)
    (isTeacher : Bool) (scoreFail : Bool) : Except ApiError (Db × Attempt) :=
  match db.attempts.find? (fun a => a.id == id) with
  | none => .error .notFound
  | some existing =>
    match db.exams.find? (fun e => e.id == existing.examId) with
    | none => .error .notFound
    | some exam =>
      if !isTeacher && existing.userId != userId then
        .error .forbidden
      else if !isTeacher then
        match dto.status with
        | some s =>
          if s == AttemptStatus.SUBMITTED || s == AttemptStatus.COMPLETED then
            let att := studentPatch db exam now existing dto s scoreFail
            .ok ({ db with attempts := replaceAttempt db.attempts id att }, att)
          else
            .error .badRequest
        | none =>
          let att := { existing with timeSpent := orKeep existing.timeSpent dto.timeSpent }
          .ok ({ db with attempts := replaceAttempt db.attempts id att }, att)
      else
        let att := teacherPatch existing userId dto
        .ok ({ db with attempts := replaceAttempt db.attempts id att }, att)

/-! ## Answer Ledger (`AnswerService.create` / `AnswerService.update`) -/

/-- `CreateAnswerDto`. -/
structure CreateAnswerDto where
  attemptId : String
  questionId : String
  selectedOption : Option String := none
  answerText : Option String := none
  timeSpent : Option ℚ := none
deriving DecidableEq, Repr

/-- `UpdateAnswerDto`. -/
structure UpdateAnswerDto where
  selectedOption : Option String := none
  answerText : Option String := none
  timeSpent : Option ℚ := none
deriving DecidableEq, Repr

/-- The opportunistic write-time marks computation in `AnswerService.create`:
for an MCQ question with a truthy selected option on a negative-marking
exam, `correctMark` when the selection equals `correctOption`, else
`incorrectMark`; `null` otherwise. -/
def writeTimeMarks (exam : Exam) (q : Question) (selectedOption : Option String) :
    Option ℚ :=
  if q.type == QuestionType.MCQ && strTruthy selectedOption && exam.negativeMarking then
    if selectedOption == q.correctOption then some exam.correctMark
    else some exam.incorrectMark
  else none

/-- Replace the answer row with the given id. -/
def replaceAnswerById (l : List Answer) (id : String) (a : Answer) : List Answer :=
  l.map (fun b => if b.id == id then a else b)

/-- `AnswerService.create(userId, dto)` — the student upsert path.

Mirrors the source: NotFound for a missing attempt or question, Forbidden
for a foreign attempt, BadRequest when the attempt is `SUBMITTED` or
`EVALUATED` ("locked") or when the question belongs to a different exam.
When an answer row for `(attemptId, questionId)` exists it is updated in
place: `undefined` dto fields are skipped by Prisma (stored values kept),
supplied values replace (`timeSpent` included), and `marks` is always
written with the freshly computed write-time value.  Otherwise a new row is
inserted. -/
def answerCreate (db : Db) (userId : String) (dto : CreateAnswerDto)
    (newId : String) : Except ApiError (Db × Answer) :=
  match db.attempts.find? (fun a => a.id == dto.attemptId) with
  | none => .error .notFound
  | some attempt =>
    match db.exams.find? (fun e => e.id == attempt.examId) with
    | none => .error .notFound
    | some exam =>
      if attempt.userId != userId then .error .forbidden
      else if attempt.status == AttemptStatus.SUBMITTED ||
          attempt.status == AttemptStatus.EVALUATED then
        .error .badRequest
      else
        match db.questions.find? (fun q => q.id == dto.questionId) with
        | none => .error .notFound
        | some question =>
          if question.examId != attempt.examId then .error .badRequest
          else
            let marks := writeTimeMarks exam question dto.selectedOption
            match db.answers.find? (fun a =>
                a.attemptId == dto.attemptId && a.questionId == dto.questionId) with
            | some old =>
              let upd : Answer :=
                { old with
                  selectedOption := orKeep old.selectedOption dto.selectedOption
                  answerText := orKeep old.answerText dto.answerText
                  timeSpent := orKeep old.timeSpent dto.timeSpent
                  marks := marks }
              .ok ({ db with answers := replaceAnswerById db.answers old.id upd }, upd)
            | none =>
              let created : Answer :=
                { id := newId
                  attemptId := dto.attemptId
                  questionId := dto.questionId
                  selectedOption := dto.selectedOption
                  answerText := dto.answerText
                  timeSpent := dto.timeSpent
                  marks := marks }
              .ok ({ db with answers := db.answers ++ [created] }, created)

/-- `AnswerService.update(id, userId, dto)` — the student revision path.

Mirrors the source: NotFound for a missing answer or question, Forbidden
for a foreign attempt, Forbidden unless the attempt status is exactly
`IN_PROGRESS`.  MCQ: a supplied truthy option must be one of the question's
options (BadRequest otherwise), a truthy option clears a truthy stored
`answerText`.  DESCRIPTIVE: symmetric.  A supplied `timeSpent` is added to
the stored value (`(answer.timeSpent || 0) + dto.timeSpent`). -/
def answerUpdate (db : Db) (id userId : String) (dto : UpdateAnswerDto) :
    Except ApiError (Db × Answer) :=
  match db.answers.find? (fun a => a.id == id) with
  | none => .error .notFound
  | some answer =>
    match db.attempts.find? (fun a => a.id == answer.attemptId) with
    | none => .error .notFound
    | some attempt =>
      if attempt.userId != userId then .error .forbidden
      else if attempt.status != AttemptStatus.IN_PROGRESS then .error .forbidden
      else
        match db.questions.find? (fun q => q.id == answer.questionId) with
        | none => .error .notFound
        | some question =>
          let fieldStep : Except ApiError Answer :=
            match question.type with
            | QuestionType.MCQ =>
              if dto.selectedOption.isSome &&
                  strTruthy dto.selectedOption &&
                  !(question.options.contains (dto.selectedOption.getD "")) then
                .error .badRequest
              else
                let a1 :=
                  match dto.selectedOption with
                  | some s => { answer with selectedOption := some s }
                  | none => answer
                let a2 :=
                  if strTruthy dto.selectedOption && strTruthy answer.answerText then
                    { a1 with answerText := none }
                  else a1
                .ok a2
            | QuestionType.DESCRIPTIVE =>
              let a1 :=
                match dto.answerText with
                | some s => { answer with answerText := some s }
                | none => answer
              let a2 :=
                if strTruthy dto.answerText && strTruthy answer.selectedOption then
                  { a1 with selectedOption := none }
                else a1
              .ok a2
          match fieldStep with
          | .error e => .error e
          | .ok a2 =>
            let a3 :=
              match dto.timeSpent with
              | some t => { a2 with timeSpent := some (answer.timeSpent.getD 0 + t) }
              | none => a2
            .ok ({ db with answers := replaceAnswerById db.answers id a3 }, a3)

/-! ## Bulk evaluation (`AnswerService.bulkEvaluate`) -/

/-- One entry of the `evaluations` array. -/
structure BulkEval where
  questionId : String
  marks : ℚ
  feedback : Option String := none
deriving DecidableEq, Repr

/-- The unique-key predicate `attemptId_questionId`. -/
def bulkKey (attemptId questionId : String) (a : Answer) : Bool :=
  a.attemptId == attemptId && a.questionId == questionId

/-- The per-entry answer patch written inside the bulk-evaluation loop. -/
def patchAnswer (now : ℤ) (teacherId : String) (e : BulkEval) (a : Answer) : Answer :=
  { a with
    marks := some e.marks
    feedback := orKeep a.feedback e.feedback
    evaluatedBy := some teacherId
    evaluatedAt := some now }

/-- The transaction body of `bulkEvaluate`: for each entry, look up the
answer by `(attemptId, questionId)`; if found, write the patch (by row id)
and accumulate `totalMarks` and the evaluated count; missing answers are
skipped.  `oracle i` models the i-th database write inside the transaction
throwing; a throw aborts the whole transaction. -/
def bulkRun (oracle : ℕ → Bool) (now : ℤ) (teacherId attemptId : String) :
    List BulkEval → List Answer × ℚ × ℕ → ℕ →
    Except Unit ((List Answer × ℚ × ℕ) × ℕ)
  | [], st, i => .ok (st, i)
  | e :: es, st, i =>
    match st.1.find? (bulkKey attemptId e.questionId) with
    | some a =>
      if oracle i then .error ()
      else
        bulkRun oracle now teacherId attemptId es
          (replaceAnswerById st.1 a.id (patchAnswer now teacherId e a),
            st.2.1 + e.marks, st.2.2 + 1)
          (i + 1)
    | none => bulkRun oracle now teacherId attemptId es st i

/-- `AnswerService.bulkEvaluate(attemptId, teacherId, evaluations)`.

Returns the database as observed after the call together with the outcome.
Mirrors the source: NotFound for a missing attempt, Forbidden unless the
teacher owns the exam; then a single `$transaction` runs the evaluation
loop and finally sets the attempt's `status = EVALUATED`,
`score = totalMarks` and `evaluatedBy = teacherId`.  A write failure
anywhere inside the transaction (modelled by `oracle`) rolls every write
back, leaving the database unchanged. -/
def bulkEvaluateF (oracle : ℕ → Bool) (db : Db) (now : ℤ)
    (attemptId teacherId : String) (evals : List BulkEval) :
    Db × Except ApiError ℕ :=
  match db.attempts.find? (fun a => a.id == attemptId) with
  | none => (db, .error .notFound)
  | some attempt =>
    match db.exams.find? (fun e => e.id == attempt.examId) with
    | none => (db, .error .notFound)
    | some exam =>
      if exam.teacherId != teacherId then (db, .error .forbidden)
      else
        match bulkRun oracle now teacherId attemptId evals (db.answers, 0, 0) 0 with
        | .error _ => (db, .error .internal)
        | .ok (st, i) =>
          if oracle i then (db, .error .internal)
          else
            let att : Attempt :=
              { attempt with
                status := AttemptStatus.EVALUATED
                score := some st.2.1
                evaluatedBy := some teacherId }
            ({ db with
                answers := st.1
                attempts := replaceAttempt db.attempts attemptId att },
              .ok st.2.2)

/-- The oracle of a fault-free run: no write throws. -/
def noFault : ℕ → Bool := fun _ => false

/-- `AnswerService.bulkEvaluate` in a fault-free run. -/
def bulkEvaluate (db : Db) (now : ℤ) (attemptId teacherId : String)
    (evals : List BulkEval) : Db × Except ApiError ℕ :=
  bulkEvaluateF noFault db now attemptId teacherId evals

/-- Whether the entry has a matching answer row (those without are skipped). -/
def matchedEval (answers : List Answer) (attemptId : String) (e : BulkEval) : Bool :=
  (answers.find? (bulkKey attemptId e.questionId)).isSome

/-- Sum of the `marks` of the matched entries. -/
def sumMatched (answers : List Answer) (attemptId : String)
    (evals : List BulkEval) : ℚ :=
  ((evals.filter (matchedEval answers attemptId)).map BulkEval.marks).sum

/-- Number of matched entries. -/
def countMatched (answers : List Answer) (attemptId : String)
    (evals : List BulkEval) : ℕ :=
  (evals.filter (matchedEval answers attemptId)).length

/-! ## Result projections and property predicates -/

/-- The attempt a successful `AttemptService` call returns. -/
def okAttempt : Except ApiError (Db × Attempt) → Option Attempt
  | .ok (_, a) => some a
  | .error _ => none

/-- The answer a successful `AnswerService` call returns. -/
def okAnswer : Except ApiError (Db × Answer) → Option Answer
  | .ok (_, a) => some a
  | .error _ => none

/-- The §3 invariant `percentage = score / maxScore * 100` on the attempt a
successful call returns (vacuous on errors). -/
def percentageInvariant : Except ApiError (Db × Attempt) → Prop
  | .ok (_, att) =>
    att.score.isSome = true ∧
    att.percentage = some (att.score.getD 0 / att.maxScore * 100)
  | .error _ => True

/-! ## Concrete fixtures -/

/-- A paid (non-free) active exam without a parent test series. -/
def examPaid : Exam :=
  { id := "E1", isActive := true, isFree := false, totalMarks := 10
    negativeMarking := true, correctMark := 2, incorrectMark := -2/3
    teacherId := "T1", testSeriesId := none }

/-- A free active exam. -/
def examFree : Exam :=
  { id := "E1", isActive := true, isFree := true, totalMarks := 10
    negativeMarking := false, correctMark := 2, incorrectMark := 0
    teacherId := "T1", testSeriesId := none }

/-- A completed individual-exam purchase of `E1` whose validity ended at
time `1000`. -/
def purchaseExpired : Purchase :=
  { id := "P1", userId := "U1", status := PurchaseStatus.COMPLETED
    type := PurchaseType.INDIVIDUAL_EXAM, examId := some "E1"
    testSeriesId := none, validTill := 1000 }

/-- Database for the entitlement check: the only purchase covering `E1` is
completed but expired. -/
def dbC1 : Db :=
  { exams := [examPaid], questions := [], purchases := [purchaseExpired]
    attempts := [], answers := [] }

/-- Database for attempt creation: one free active exam, no attempts yet. -/
def dbC2 : Db :=
  { exams := [examFree], questions := [], purchases := [], attempts := []
    answers := [] }

/-- The attempt a status-less creation payload produces on `dbC2`. -/
def attC2w : Attempt :=
  { id := "A1", userId := "U1", examId := "E1"
    status := AttemptStatus.IN_PROGRESS, startTime := 120000, maxScore := 10 }

/-- `dbC2` after that creation. -/
def dbC2w : Db := { dbC2 with attempts := [attC2w] }

/-- An `IN_PROGRESS` attempt of user `U1` on exam `E1`. -/
def attInProgress : Attempt :=
  { id := "A1", userId := "U1", examId := "E1"
    status := AttemptStatus.IN_PROGRESS, startTime := 0, maxScore := 10 }

/-- Database with a free exam and an attempt already in progress. -/
def dbC5 : Db :=
  { exams := [examFree], questions := [], purchases := []
    attempts := [attInProgress], answers := [] }

/-- Negative-marking exam whose per-correct mark (3) differs from the
question's own marks (2). -/
def examC3 : Exam :=
  { id := "E3", isActive := true, isFree := false, totalMarks := 10
    negativeMarking := true, correctMark := 3, incorrectMark := -1
    teacherId := "T1", testSeriesId := none }

/-- A 2-mark MCQ question of `examC3` with correct option `a`. -/
def qC3 : Question :=
  { id := "Q3", examId := "E3", type := QuestionType.MCQ
    correctOption := some "a", options := ["a", "b"], marks := 2 }

/-- An answer selecting the correct option `a`. -/
def ansC3a : Answer := { id := "N3", attemptId := "A3", questionId := "Q3"
                         selectedOption := some "a" }

/-- An answer selecting the incorrect option `b`. -/
def ansC3b : Answer := { id := "N3", attemptId := "A3", questionId := "Q3"
                         selectedOption := some "b" }

/-- Database with a free exam and an in-progress attempt for the C4
witness. -/
def dbC4w : Db :=
  { exams := [examFree], questions := [], purchases := []
    attempts := [attInProgress], answers := [] }

/-- A 10-mark descriptive question of exam `E1`. -/
def qC4 : Question :=
  { id := "Q1", examId := "E1", type := QuestionType.DESCRIPTIVE
    correctOption := none, options := [], marks := 10 }

/-- A submitted attempt that was already scored: `score = 5` of
`maxScore = 10`, so `percentage = 50`. -/
def attC4 : Attempt :=
  { id := "A1", userId := "U1", examId := "E1"
    status := AttemptStatus.SUBMITTED, startTime := 0, maxScore := 10
    score := some 5, percentage := some 50 }

/-- The descriptive answer of that attempt, awaiting evaluation. -/
def ansC4 : Answer :=
  { id := "N1", attemptId := "A1", questionId := "Q1"
    answerText := some "essay" }

/-- Database before the C4 bulk evaluation. -/
def dbC4 : Db :=
  { exams := [examPaid], questions := [qC4], purchases := []
    attempts := [attC4], answers := [ansC4] }

/-- The attempt as stored after `bulkEvaluate` grants 7 marks. -/
def attC4' : Attempt :=
  { attC4 with
    status := AttemptStatus.EVALUATED, score := some 7
    evaluatedBy := some "T1" }

/-- Database for the C9 witness: free exam, unscored in-progress attempt. -/
def dbC9 : Db :=
  { exams := [examFree], questions := [], purchases := []
    attempts := [attInProgress], answers := [] }

/-- A descriptive question of exam `E1`. -/
def qC6 : Question :=
  { id := "Q1", examId := "E1", type := QuestionType.DESCRIPTIVE
    correctOption := none, options := [], marks := 10 }

/-- An answer with 30 accumulated seconds of `timeSpent`. -/
def ansC6 : Answer :=
  { id := "N1", attemptId := "A1", questionId := "Q1"
    answerText := some "draft", timeSpent := some 30 }

/-- Database with an in-progress attempt and the answer above. -/
def dbC6 : Db :=
  { exams := [examFree], questions := [qC6], purchases := []
    attempts := [attInProgress], answers := [ansC6] }

/-- The answer after `AnswerService.update` with `timeSpent = 30`. -/
def ansC6u : Answer :=
  { ansC6 with answerText := some "rev", timeSpent := some ((30 : ℚ) + 30) }

/-- `dbC6` after that revision. -/
def dbC6u : Db := { dbC6 with answers := [ansC6u] }

/-- The answer after the upsert path rewrites it with `timeSpent = 30`. -/
def ansC6b : Answer :=
  { ansC6 with answerText := some "x", timeSpent := some (30 : ℚ), marks := none }

/-- `dbC6` after that upsert. -/
def dbC6b : Db := { dbC6 with answers := [ansC6b] }

/-- `attInProgress` force-closed by the student (`status = COMPLETED`). -/
def attC10 : Attempt :=
  { attInProgress with status := AttemptStatus.COMPLETED, endTime := some (3 : ℤ) }

/-- `dbC6` after the force-close. -/
def dbC10 : Db := { dbC6 with attempts := [attC10] }

/-- `dbC6` with the attempt in status `SUBMITTED` instead. -/
def dbC10s : Db :=
  { dbC6 with attempts := [{ attInProgress with status := AttemptStatus.SUBMITTED }] }

/-- A second 10-mark descriptive question of exam `E1`. -/
def qC8 : Question :=
  { id := "Q2", examId := "E1", type := QuestionType.DESCRIPTIVE
    correctOption := none, options := [], marks := 10 }

/-- The answer to `Q2` within attempt `A1`. -/
def ansC8 : Answer :=
  { id := "N2", attemptId := "A1", questionId := "Q2"
    answerText := some "essay two" }

/-- Database with a submitted two-question attempt awaiting evaluation. -/
def dbC8 : Db :=
  { exams := [examPaid], questions := [qC4, qC8], purchases := []
    attempts := [attC4], answers := [ansC4, ansC8] }

/-- A fault oracle making the second transactional write throw. -/
def failSecondWrite : ℕ → Bool := fun i => i == 1

/-- The two-entry evaluation batch for the C8 witness. -/
def evalsC8 : List BulkEval :=
  [{ questionId := "Q1", marks := 7 }, { questionId := "Q2", marks := 8 }]

/-! ## Helper lemmas for bulk evaluation -/

def keyFields (a : Answer) : String × String × String :=
  (a.id, a.attemptId, a.questionId)

/-! ## Theorems -/

/-- C1: the Entitlement Checker grants access iff a completed AND
non-expired purchase covers the exam (or the exam is free).

The claim fails on the code: `checkExamAccess` filters purchases only by
`status` and `type` and never consults `validTill`, so at time `2000` a
purchase that expired at `1000` still grants access, while the spec's
predicate (modelled by `specHasAccess`) denies it. -/
theorem C1_expired_purchase_still_grants :
    checkExamAccess dbC1 "U1" "E1" false = true ∧
    (purchaseExpired.validTill < 2000) ∧
    specHasAccess dbC1 2000 "U1" "E1" = false := by
  refine ⟨by decide, by decide, by decide⟩

/-- C2 (counterexample): attempt creation does not always return an
`IN_PROGRESS` attempt — the validated `CreateAttemptDto.status` field is
honoured (`dto.status || IN_PROGRESS`), so a payload carrying
`status = COMPLETED` creates a `COMPLETED` attempt. -/
theorem C2_counterexample :
    okAttempt (attemptCreate dbC2 0 "U1"
        { examId := "E1", status := some AttemptStatus.COMPLETED } "A1")
      = some { id := "A1", userId := "U1", examId := "E1"
               status := AttemptStatus.COMPLETED, startTime := 120000
               maxScore := 10 } ∧
    AttemptStatus.COMPLETED ≠ AttemptStatus.IN_PROGRESS := by
  refine ⟨by decide, by decide⟩

/-- C2 (amended): the attempt returned by a successful
`AttemptService.create` carries the payload's status when one was supplied
and defaults to `IN_PROGRESS` when the payload omitted it. -/
theorem C2_status_from_payload (db : Db) (now : ℤ) (userId : String)
    (dto : CreateAttemptDto) (newId : String) (db2 : Db) (att : Attempt)
    (h : attemptCreate db now userId dto newId = Except.ok (db2, att)) :
    att.status = dto.status.getD AttemptStatus.IN_PROGRESS := by
  unfold attemptCreate at h
  split at h
  · exact absurd h (by simp)
  · split at h
    · exact absurd h (by simp)
    · split at h
      · exact absurd h (by simp)
      · simp only [Except.ok.injEq, Prod.mk.injEq] at h
        rw [← h.2]

/-- C2 witness: a payload without a status yields an `IN_PROGRESS` attempt. -/
theorem C2_status_from_payload_witness :
    attemptCreate dbC2 0 "U1" { examId := "E1" } "A1" = Except.ok (dbC2w, attC2w) ∧
    attC2w.status =
      (({ examId := "E1" } : CreateAttemptDto).status).getD AttemptStatus.IN_PROGRESS :=
  ⟨by rfl,
    C2_status_from_payload dbC2 0 "U1" { examId := "E1" } "A1" dbC2w attC2w (by rfl)⟩

/-- C5 (amended): creating an attempt while one for the same `(user, exam)`
pair is `IN_PROGRESS` fails — but with `BadRequestException`, not a
Conflict error — and no attempt row is written (the service throws before
reaching the insert). -/
theorem C5_duplicate_in_progress (db : Db) (now : ℤ) (userId : String)
    (dto : CreateAttemptDto) (newId : String) (exam : Exam)
    (hexam : db.exams.find? (fun e => e.id == dto.examId && e.isActive) = some exam)
    (hacc : checkExamAccess db userId exam.id exam.isFree = true)
    (hdup : (db.attempts.find? (fun a =>
        a.userId == userId && a.examId == exam.id &&
        a.status == AttemptStatus.IN_PROGRESS)).isSome = true) :
    attemptCreate db now userId dto newId = Except.error ApiError.badRequest := by
  unfold attemptCreate
  rw [hexam]
  simp [hacc, hdup]

/-- C5 witness: the amended theorem applied to `dbC5`. -/
theorem C5_duplicate_in_progress_witness :
    attemptCreate dbC5 0 "U1" { examId := "E1" } "A2" =
      Except.error ApiError.badRequest :=
  C5_duplicate_in_progress dbC5 0 "U1" { examId := "E1" } "A2" examFree
    (by rfl) (by rfl) (by rfl)

/-- C5 (counterexample): the failure is a `BadRequestException`, not the
Conflict error the claim names. -/
theorem C5_not_conflict :
    attemptCreate dbC5 0 "U1" { examId := "E1", timeSpent := some 0 } "A2" =
      Except.error ApiError.badRequest ∧
    ApiError.badRequest ≠ ApiError.conflict :=
  ⟨by rfl, by decide⟩

/-- `x || 0` is the identity on numbers. -/
theorem jsOr_zero (x : ℚ) : jsOr x 0 = x := by
  unfold jsOr
  split
  · simp_all
  · rfl

/-- C3 (amended): for an MCQ answer on a negative-marking exam, the
write-time marks (`AnswerService.create`) and the submission-time
contribution (`AttemptService.calculateScore`) agree on every incorrect
selection (both yield `exam.incorrectMark`), but on a correct selection the
ledger writes `exam.correctMark` while the engine adds
`question.marks || 1` — they agree exactly when those two values
coincide. -/
theorem C3_write_time_vs_engine (exam : Exam) (q : Question) (a : Answer)
    (s : String)
    (hneg : exam.negativeMarking = true)
    (hty : q.type = QuestionType.MCQ)
    (hsel : a.selectedOption = some s)
    (hs : s ≠ "") :
    ((a.selectedOption == q.correctOption) = false →
      writeTimeMarks exam q a.selectedOption = some exam.incorrectMark ∧
      (answerContrib exam q a).1 = exam.incorrectMark) ∧
    ((a.selectedOption == q.correctOption) = true →
      writeTimeMarks exam q a.selectedOption = some exam.correctMark ∧
      (answerContrib exam q a).1 = jsOr q.marks 1 ∧
      (writeTimeMarks exam q a.selectedOption = some ((answerContrib exam q a).1) ↔
        exam.correctMark = jsOr q.marks 1)) := by
  have hie : s.isEmpty = false := by
    cases hemp : s.isEmpty
    · rfl
    · exact absurd ((String.isEmpty_iff s).mp hemp) hs
  have htr : strTruthy a.selectedOption = true := by
    rw [hsel]
    simp [strTruthy, hie]
  constructor
  · intro hne
    unfold writeTimeMarks answerContrib
    simp [hty, hneg, htr, hne, jsOr_zero]
  · intro heq
    unfold writeTimeMarks answerContrib
    simp [hty, hneg, htr, heq]

/-- C3 (counterexample): on a correct selection the Answer Ledger writes
`exam.correctMark = 3` while the Scoring Engine credits
`question.marks = 2`, so the two computations disagree. -/
theorem C3_counterexample :
    writeTimeMarks examC3 qC3 ansC3a.selectedOption = some 3 ∧
    (answerContrib examC3 qC3 ansC3a).1 = 2 ∧
    some (3 : ℚ) ≠ some (2 : ℚ) := by
  refine ⟨by decide, by decide, by decide⟩

/-- C3 witness: on an incorrect selection both computations yield
`incorrectMark = -1`. -/
theorem C3_write_time_vs_engine_witness :
    writeTimeMarks examC3 qC3 ansC3b.selectedOption = some examC3.incorrectMark ∧
    (answerContrib examC3 qC3 ansC3b).1 = examC3.incorrectMark :=
  (C3_write_time_vs_engine examC3 qC3 ansC3b "b" (by rfl) (by rfl) (by rfl)
    (by decide)).1 (by decide)

/-- C4 (amended): the invariant `percentage = score / maxScore * 100` holds
on the stored attempt after a student submission (scoring succeeding) and
after a teacher update that sets `score`; bulk evaluation, however,
overwrites `score` without touching `percentage` (see the
counterexample). -/
theorem C4_percentage_invariant :
    (∀ (db : Db) (now : ℤ) (id userId : String) (dto : UpdateAttemptDto),
      dto.status = some AttemptStatus.SUBMITTED →
      percentageInvariant (attemptUpdate db now id userId dto false false)) ∧
    (∀ (db : Db) (now : ℤ) (id userId : String) (dto : UpdateAttemptDto) (sc : ℚ),
      dto.score = some sc →
      percentageInvariant (attemptUpdate db now id userId dto true false)) := by
  constructor
  · intro db now id userId dto hst
    unfold attemptUpdate
    split
    · trivial
    · split
      · trivial
      · split
        · trivial
        · rw [hst]
          simp [percentageInvariant, studentPatch, calculateScore]
  · intro db now id userId dto sc hsc
    unfold attemptUpdate
    split
    · trivial
    · split
      · trivial
      · simp only [Bool.not_true, Bool.false_and, Bool.false_eq_true, if_false]
        simp [percentageInvariant, teacherPatch, hsc, orKeep]

/-- C4 witness: the invariant after a concrete student submission and after
a concrete teacher score update. -/
theorem C4_percentage_invariant_witness :
    percentageInvariant
      (attemptUpdate dbC4w 5 "A1" "U1" { status := some AttemptStatus.SUBMITTED }
        false false) ∧
    percentageInvariant
      (attemptUpdate dbC4w 5 "A1" "T1" { score := some 7 } true false) :=
  ⟨C4_percentage_invariant.1 dbC4w 5 "A1" "U1"
      { status := some AttemptStatus.SUBMITTED } rfl,
    C4_percentage_invariant.2 dbC4w 5 "A1" "T1" { score := some 7 } 7 rfl⟩

/-- C4 (counterexample): bulk evaluation overwrites `score` (5 → 7) but
leaves the stale `percentage = 50` standing, violating
`percentage = score / maxScore * 100` even though `score` and `maxScore`
are both set. -/
theorem C4_counterexample :
    (List.find? (fun a => a.id == "A1")
        (bulkEvaluate dbC4 9 "A1" "T1" [{ questionId := "Q1", marks := 7 }]).1.attempts).map
      (fun a => (a.score, a.maxScore, a.percentage))
      = some (some 7, 10, some 50) ∧
    (50 : ℚ) ≠ 7 / 10 * 100 := by
  constructor
  · norm_num [bulkEvaluate, bulkEvaluateF, bulkRun, bulkKey, patchAnswer, noFault,
      replaceAnswerById, replaceAttempt, dbC4, attC4, ansC4, qC4, examPaid, orKeep]
  · norm_num

/-- C9: when the Scoring Engine throws during a student submission
(`scoreFail = true`, the `catch` branch returning `null`), the submission
still succeeds: the call returns `ok` (no error propagates), the attempt
becomes `SUBMITTED` with `submitTime` stamped, and — for an attempt whose
score fields were unset — `score`, `correctAnswers`, `incorrectAnswers`,
`unattempted`, `accuracy` and `percentage` all remain unset. -/
theorem C9_scoring_failure_swallowed (db : Db) (now : ℤ) (id userId : String)
    (dto : UpdateAttemptDto) (att : Attempt)
    (hatt : db.attempts.find? (fun a => a.id == id) = some att)
    (hex : (db.exams.find? (fun e => e.id == att.examId)).isSome = true)
    (hown : att.userId = userId)
    (hst : dto.status = some AttemptStatus.SUBMITTED)
    (hts : dto.timeSpent = none)
    (hsc : att.score = none) (hca : att.correctAnswers = none)
    (hia : att.incorrectAnswers = none) (hun : att.unattempted = none)
    (hac : att.accuracy = none) (hpc : att.percentage = none) :
    okAttempt (attemptUpdate db now id userId dto false true) =
      some { att with status := AttemptStatus.SUBMITTED, submitTime := some now } ∧
    ({ att with status := AttemptStatus.SUBMITTED, submitTime := some now }
        : Attempt).score = none ∧
    ({ att with status := AttemptStatus.SUBMITTED, submitTime := some now }
        : Attempt).correctAnswers = none ∧
    ({ att with status := AttemptStatus.SUBMITTED, submitTime := some now }
        : Attempt).incorrectAnswers = none ∧
    ({ att with status := AttemptStatus.SUBMITTED, submitTime := some now }
        : Attempt).unattempted = none ∧
    ({ att with status := AttemptStatus.SUBMITTED, submitTime := some now }
        : Attempt).accuracy = none ∧
    ({ att with status := AttemptStatus.SUBMITTED, submitTime := some now }
        : Attempt).percentage = none := by
  obtain ⟨exam, hexam⟩ := Option.isSome_iff_exists.mp hex
  unfold attemptUpdate
  simp only [hatt, hexam, hst]
  simp [hown, okAttempt, studentPatch, calculateScore, orKeep, hts, hsc, hca,
    hia, hun, hac, hpc]

/-- C9 witness: the theorem applied to `dbC9` at time `7`. -/
theorem C9_scoring_failure_swallowed_witness :
    okAttempt (attemptUpdate dbC9 7 "A1" "U1"
        { status := some AttemptStatus.SUBMITTED } false true) =
      some { attInProgress with
              status := AttemptStatus.SUBMITTED, submitTime := some (7 : ℤ) } ∧
    ({ attInProgress with
        status := AttemptStatus.SUBMITTED, submitTime := some (7 : ℤ) }
      : Attempt).score = none :=
  ⟨(C9_scoring_failure_swallowed dbC9 7 "A1" "U1"
      { status := some AttemptStatus.SUBMITTED } attInProgress
      rfl rfl rfl rfl rfl rfl rfl rfl rfl rfl rfl).1,
    (C9_scoring_failure_swallowed dbC9 7 "A1" "U1"
      { status := some AttemptStatus.SUBMITTED } attInProgress
      rfl rfl rfl rfl rfl rfl rfl rfl rfl rfl rfl).2.1⟩

/-- C6 (amended): the two student write paths treat `timeSpent`
differently.  `AnswerService.update` accumulates: a supplied `timeSpent` is
added to the stored value (so two updates of 30 yield 60).  The upsert path
(`AnswerService.create` hitting an existing row) does not accumulate: the
supplied `timeSpent` replaces the stored value. -/
theorem C6_timeSpent_accumulation :
    (∀ (db : Db) (id userId : String) (dto : UpdateAnswerDto) (t : ℚ)
        (old : Answer) (db2 : Db) (a2 : Answer),
      db.answers.find? (fun a => a.id == id) = some old →
      dto.timeSpent = some t →
      answerUpdate db id userId dto = .ok (db2, a2) →
      a2.timeSpent = some (old.timeSpent.getD 0 + t)) ∧
    (∀ (db : Db) (userId : String) (dto : CreateAnswerDto) (newId : String)
        (t : ℚ) (old : Answer) (db2 : Db) (a2 : Answer),
      db.answers.find? (fun a =>
          a.attemptId == dto.attemptId && a.questionId == dto.questionId) = some old →
      dto.timeSpent = some t →
      answerCreate db userId dto newId = .ok (db2, a2) →
      a2.timeSpent = some t) := by
  constructor
  · intro db id userId dto t old db2 a2 hfind hts h
    unfold answerUpdate at h
    simp only [hfind, hts] at h
    split at h
    · exact absurd h (by simp)
    · split at h
      · exact absurd h (by simp)
      · split at h
        · exact absurd h (by simp)
        · split at h
          · exact absurd h (by simp)
          · split at h
            · exact absurd h (by simp)
            · simp only [Except.ok.injEq, Prod.mk.injEq] at h
              rw [← h.2]
  · intro db userId dto newId t old db2 a2 hkey hts h
    unfold answerCreate at h
    simp only [hkey, hts] at h
    split at h
    · exact absurd h (by simp)
    · split at h
      · exact absurd h (by simp)
      · split at h
        · exact absurd h (by simp)
        · split at h
          · exact absurd h (by simp)
          · split at h
            · exact absurd h (by simp)
            · split at h
              · exact absurd h (by simp)
              · simp only [Except.ok.injEq, Prod.mk.injEq] at h
                rw [← h.2]
                simp [orKeep]

/-- C6 witness: both parts of the theorem at concrete inputs — the update
path adds 30 to the stored 30, the upsert path stores the supplied 30. -/
theorem C6_timeSpent_accumulation_witness :
    ansC6u.timeSpent = some (ansC6.timeSpent.getD 0 + 30) ∧
    ansC6b.timeSpent = some (30 : ℚ) :=
  ⟨C6_timeSpent_accumulation.1 dbC6 "N1" "U1"
      { answerText := some "rev", timeSpent := some 30 } 30 ansC6 dbC6u ansC6u
      rfl rfl rfl,
    C6_timeSpent_accumulation.2 dbC6 "U1"
      { attemptId := "A1", questionId := "Q1", answerText := some "x"
        timeSpent := some 30 } "N2" 30 ansC6 dbC6b ansC6b rfl rfl rfl⟩

/-- C6 (counterexample): on the upsert path a stored `timeSpent = 30` plus a
supplied `timeSpent = 30` yields 30 (replacement), not the 60 the claim's
accumulation property demands. -/
theorem C6_counterexample :
    (okAnswer (answerCreate dbC6 "U1"
        { attemptId := "A1", questionId := "Q1", answerText := some "x"
          timeSpent := some 30 } "N2")).map Answer.timeSpent
      = some (some (30 : ℚ)) ∧
    some (some (30 : ℚ)) ≠ some (some ((30 : ℚ) + 30)) := by
  constructor
  · rfl
  · intro h
    simp only [Option.some.injEq] at h
    norm_num at h

/-- C10: the two student answer-write paths enforce different status locks.
`COMPLETED` is reachable (the student force-closes via
`AttemptService.update`); on a `COMPLETED` attempt the upsert path
(`AnswerService.create`, rejecting only `SUBMITTED`/`EVALUATED`) still
accepts the owning student's write while the revision path
(`AnswerService.update`, requiring exactly `IN_PROGRESS`) rejects it with
Forbidden.  On `IN_PROGRESS` both paths accept; on `SUBMITTED` both
reject. -/
theorem C10_lock_asymmetry :
    attemptUpdate dbC6 3 "A1" "U1" { status := some AttemptStatus.COMPLETED }
        false false = Except.ok (dbC10, attC10) ∧
    attC10.status = AttemptStatus.COMPLETED ∧
    (okAnswer (answerCreate dbC10 "U1"
        { attemptId := "A1", questionId := "Q1", answerText := some "y" }
        "N2")).isSome = true ∧
    answerUpdate dbC10 "N1" "U1" { answerText := some "z" }
      = Except.error ApiError.forbidden ∧
    (okAnswer (answerCreate dbC6 "U1"
        { attemptId := "A1", questionId := "Q1", answerText := some "y" }
        "N2")).isSome = true ∧
    (okAnswer (answerUpdate dbC6 "N1" "U1" { answerText := some "z" })).isSome
      = true ∧
    answerCreate dbC10s "U1"
        { attemptId := "A1", questionId := "Q1", answerText := some "y" } "N2"
      = Except.error ApiError.badRequest ∧
    answerUpdate dbC10s "N1" "U1" { answerText := some "z" }
      = Except.error ApiError.forbidden := by
  refine ⟨rfl, rfl, rfl, rfl, rfl, rfl, rfl, rfl⟩

/-- C8: bulk evaluation is all-or-nothing.  Whatever write inside the
`$transaction` fails (any `oracle`, any position in the batch — also after
several answer patches have already been applied transaction-locally), the
observable database after a failing call is exactly the database before it:
no answer keeps a partial mark and the attempt's status/score/evaluatedBy
are untouched. -/
theorem C8_bulk_atomicity (oracle : ℕ → Bool) (db : Db) (now : ℤ)
    (attemptId teacherId : String) (evals : List BulkEval) (e : ApiError) :
    (bulkEvaluateF oracle db now attemptId teacherId evals).2 = .error e →
    (bulkEvaluateF oracle db now attemptId teacherId evals).1 = db := by
  unfold bulkEvaluateF
  split
  · intro _
    rfl
  · split
    · intro _
      rfl
    · split
      · intro _
        rfl
      · split
        · intro _
          rfl
        · split
          · intro _
            rfl
          · intro hcontra
            exact absurd hcontra (by simp)

/-- C8 witness: the batch fails on its second write — after the first
answer was already patched inside the transaction — and the database is
unchanged. -/
theorem C8_bulk_atomicity_witness :
    (bulkEvaluateF failSecondWrite dbC8 9 "A1" "T1" evalsC8).2 =
      Except.error ApiError.internal ∧
    (bulkEvaluateF failSecondWrite dbC8 9 "A1" "T1" evalsC8).1 = dbC8 :=
  ⟨by rfl,
    C8_bulk_atomicity failSecondWrite dbC8 9 "A1" "T1" evalsC8
      ApiError.internal (by rfl)⟩

theorem find?_congr_mem {α : Type} {p q : α → Bool} :
    ∀ {l : List α}, (∀ a ∈ l, p a = q a) → l.find? p = l.find? q := by
  intro l
  induction l with
  | nil => intro _; rfl
  | cons x xs ih =>
    intro h
    simp only [List.find?]
    rw [h x (by simp)]
    cases hq : q x
    · exact ih (fun a ha => h a (by simp [ha]))
    · rfl

theorem answer_inj (l : List Answer) (hids : (l.map Answer.id).Nodup)
    {x y : Answer} (hx : x ∈ l) (hy : y ∈ l) (h : x.id = y.id) : x = y :=
  List.inj_on_of_nodup_map hids hx hy h

theorem patchAnswer_keyFields (now : ℤ) (tid : String) (e : BulkEval) (a : Answer) :
    keyFields (patchAnswer now tid e a) = keyFields a := rfl

theorem replace_keyFields (l : List Answer) (hids : (l.map Answer.id).Nodup)
    (a : Answer) (ha : a ∈ l) (w : Answer) (hw : keyFields w = keyFields a) :
    (replaceAnswerById l a.id w).map keyFields = l.map keyFields := by
  unfold replaceAnswerById
  rw [List.map_map]
  apply List.map_congr_left
  intro b hb
  simp only [Function.comp_apply]
  by_cases hid : (b.id == a.id) = true
  · have hba : b = a := answer_inj l hids hb ha (by simpa using hid)
    simp [hid, hw, hba]
  · simp [hid]

theorem bulkKey_of_keyFields (aid q : String) (x w : Answer)
    (h : keyFields w = keyFields x) : bulkKey aid q w = bulkKey aid q x := by
  unfold keyFields at h
  simp only [Prod.mk.injEq] at h
  unfold bulkKey
  rw [h.2.1, h.2.2]

theorem replace_find?_same (l : List Answer) (hids : (l.map Answer.id).Nodup)
    (aid qid : String) (a : Answer)
    (hfind : l.find? (bulkKey aid qid) = some a)
    (w : Answer) (hw : keyFields w = keyFields a) :
    (replaceAnswerById l a.id w).find? (bulkKey aid qid) = some w := by
  have ha : a ∈ l := List.mem_of_find?_eq_some hfind
  unfold replaceAnswerById
  rw [List.find?_map]
  have hpf : ∀ b ∈ l,
      (bulkKey aid qid ∘ fun b => if (b.id == a.id) = true then w else b) b =
        bulkKey aid qid b := by
    intro b hb
    simp only [Function.comp_apply]
    by_cases hid : (b.id == a.id) = true
    · have hba : b = a := answer_inj l hids hb ha (by simpa using hid)
      subst hba
      simp only [hid, if_true]
      exact bulkKey_of_keyFields aid qid b w hw
    · simp [hid]
  rw [find?_congr_mem hpf, hfind]
  simp

theorem replace_find?_other (l : List Answer) (hids : (l.map Answer.id).Nodup)
    (aid qid q' : String) (hne : q' ≠ qid) (a : Answer)
    (hfind : l.find? (bulkKey aid qid) = some a)
    (w : Answer) (hw : keyFields w = keyFields a) :
    (replaceAnswerById l a.id w).find? (bulkKey aid q') =
      l.find? (bulkKey aid q') := by
  have ha : a ∈ l := List.mem_of_find?_eq_some hfind
  have haq : a.questionId = qid := by
    have h := List.find?_some hfind
    unfold bulkKey at h
    simp at h
    exact h.2
  unfold replaceAnswerById
  rw [List.find?_map]
  have hpf : ∀ b ∈ l,
      (bulkKey aid q' ∘ fun b => if (b.id == a.id) = true then w else b) b =
        bulkKey aid q' b := by
    intro b hb
    simp only [Function.comp_apply]
    by_cases hid : (b.id == a.id) = true
    · have hba : b = a := answer_inj l hids hb ha (by simpa using hid)
      subst hba
      simp only [hid, if_true]
      exact bulkKey_of_keyFields aid q' b w hw
    · simp [hid]
  rw [find?_congr_mem hpf]
  cases hf : l.find? (bulkKey aid q') with
  | none => rfl
  | some b =>
    have hb : b ∈ l := List.mem_of_find?_eq_some hf
    have hbq : b.questionId = q' := by
      have h := List.find?_some hf
      unfold bulkKey at h
      simp at h
      exact h.2
    have hba : b ≠ a := by
      intro hcon
      exact hne (by rw [← hbq, hcon, haq])
    have hbid : (b.id == a.id) = false := by
      cases hcase : b.id == a.id
      · rfl
      · exact absurd (answer_inj l hids hb ha (by simpa using hcase)) hba
    show some (if (b.id == a.id) = true then w else b) = some b
    rw [hbid]
    simp

theorem matchedEval_congr (l l' : List Answer)
    (hk : l'.map keyFields = l.map keyFields) (aid : String) (e : BulkEval) :
    matchedEval l' aid e = matchedEval l aid e := by
  have h1 : ∀ (m : List Answer),
      ((m.find? (bulkKey aid e.questionId)).isSome = true) ↔
        ∃ k ∈ m.map keyFields,
          (k.2.1 == aid && k.2.2 == e.questionId) = true := by
    intro m
    rw [List.find?_isSome]
    constructor
    · rintro ⟨x, hx, hpx⟩
      exact ⟨keyFields x, List.mem_map_of_mem _ hx, hpx⟩
    · rintro ⟨k, hk2, hpk⟩
      obtain ⟨x, hx, rfl⟩ := List.mem_map.mp hk2
      exact ⟨x, hx, hpk⟩
  unfold matchedEval
  rw [Bool.eq_iff_iff, h1, h1, hk]

theorem sumMatched_congr (l l' : List Answer)
    (hk : l'.map keyFields = l.map keyFields) (aid : String)
    (evals : List BulkEval) :
    sumMatched l' aid evals = sumMatched l aid evals := by
  unfold sumMatched
  rw [List.filter_congr (fun e _ => matchedEval_congr l l' hk aid e)]

theorem countMatched_congr (l l' : List Answer)
    (hk : l'.map keyFields = l.map keyFields) (aid : String)
    (evals : List BulkEval) :
    countMatched l' aid evals = countMatched l aid evals := by
  unfold countMatched
  rw [List.filter_congr (fun e _ => matchedEval_congr l l' hk aid e)]

theorem sumMatched_cons_pos (l : List Answer) (aid : String) (e : BulkEval)
    (es : List BulkEval) (h : matchedEval l aid e = true) :
    sumMatched l aid (e :: es) = e.marks + sumMatched l aid es := by
  unfold sumMatched
  simp [List.filter_cons, h]

theorem sumMatched_cons_neg (l : List Answer) (aid : String) (e : BulkEval)
    (es : List BulkEval) (h : matchedEval l aid e = false) :
    sumMatched l aid (e :: es) = sumMatched l aid es := by
  unfold sumMatched
  simp [List.filter_cons, h]

theorem countMatched_cons_pos (l : List Answer) (aid : String) (e : BulkEval)
    (es : List BulkEval) (h : matchedEval l aid e = true) :
    countMatched l aid (e :: es) = countMatched l aid es + 1 := by
  unfold countMatched
  simp [List.filter_cons, h]

theorem countMatched_cons_neg (l : List Answer) (aid : String) (e : BulkEval)
    (es : List BulkEval) (h : matchedEval l aid e = false) :
    countMatched l aid (e :: es) = countMatched l aid es := by
  unfold countMatched
  simp [List.filter_cons, h]

theorem bulkRun_noFault_spec (now : ℤ) (tid aid : String) :
    ∀ (evals : List BulkEval) (l : List Answer) (t : ℚ) (c i : ℕ),
    (l.map Answer.id).Nodup →
    (evals.map BulkEval.questionId).Nodup →
    ∃ l', bulkRun noFault now tid aid evals (l, t, c) i =
        .ok ((l', t + sumMatched l aid evals, c + countMatched l aid evals),
          i + countMatched l aid evals) ∧
      l'.map keyFields = l.map keyFields ∧
      (∀ e ∈ evals, ∀ a, l.find? (bulkKey aid e.questionId) = some a →
        l'.find? (bulkKey aid e.questionId) = some (patchAnswer now tid e a)) ∧
      (∀ q, q ∉ evals.map BulkEval.questionId →
        l'.find? (bulkKey aid q) = l.find? (bulkKey aid q)) := by
  intro evals
  induction evals with
  | nil =>
    intro l t c i hids hqs
    refine ⟨l, ?_, rfl, ?_, ?_⟩
    · simp [bulkRun, sumMatched, countMatched]
    · intro e he
      cases he
    · intro q hq
      rfl
  | cons e es ih =>
    intro l t c i hids hqs
    simp only [List.map_cons, List.nodup_cons] at hqs
    have hqe : e.questionId ∉ es.map BulkEval.questionId := hqs.1
    have hqs' : (es.map BulkEval.questionId).Nodup := hqs.2
    cases hfind : l.find? (bulkKey aid e.questionId) with
    | none =>
      have hm : matchedEval l aid e = false := by
        unfold matchedEval
        rw [hfind]
        rfl
      obtain ⟨l', h1, h2, h3, h4⟩ := ih l t c i hids hqs'
      refine ⟨l', ?_, h2, ?_, ?_⟩
      · rw [sumMatched_cons_neg l aid e es hm, countMatched_cons_neg l aid e es hm]
        simpa [bulkRun, hfind] using h1
      · intro e' he' a hfa
        rcases List.mem_cons.mp he' with rfl | hmem
        · rw [hfind] at hfa
          cases hfa
        · exact h3 e' hmem a hfa
      · intro q hq
        exact h4 q (fun hc => hq (by simp [hc]))
    | some a =>
      have ha : a ∈ l := List.mem_of_find?_eq_some hfind
      have hm : matchedEval l aid e = true := by
        unfold matchedEval
        rw [hfind]
        rfl
      have hkeys1 : (replaceAnswerById l a.id (patchAnswer now tid e a)).map keyFields
          = l.map keyFields :=
        replace_keyFields l hids a ha (patchAnswer now tid e a) rfl
      have hids1 : ((replaceAnswerById l a.id (patchAnswer now tid e a)).map
          Answer.id).Nodup := by
        have hh := congrArg (List.map Prod.fst) hkeys1
        rw [List.map_map, List.map_map] at hh
        have hfst : (Prod.fst ∘ keyFields) = Answer.id := rfl
        rw [hfst] at hh
        rw [hh]
        exact hids
      obtain ⟨l', h1, h2, h3, h4⟩ :=
        ih (replaceAnswerById l a.id (patchAnswer now tid e a))
          (t + e.marks) (c + 1) (i + 1) hids1 hqs'
      have hsum1 := sumMatched_congr l _ hkeys1 aid es
      have hcnt1 := countMatched_congr l _ hkeys1 aid es
      refine ⟨l', ?_, by rw [h2, hkeys1], ?_, ?_⟩
      · have hstep : bulkRun noFault now tid aid (e :: es) (l, t, c) i =
            bulkRun noFault now tid aid es
              (replaceAnswerById l a.id (patchAnswer now tid e a),
                t + e.marks, c + 1) (i + 1) := by
          simp [bulkRun, hfind, noFault]
        rw [hstep, h1, hsum1, hcnt1, sumMatched_cons_pos l aid e es hm,
          countMatched_cons_pos l aid e es hm]
        simp only [Except.ok.injEq, Prod.mk.injEq, true_and]
        refine ⟨⟨?_, ?_⟩, ?_⟩
        · ring
        · omega
        · omega
      · intro e' he' a' hfa'
        rcases List.mem_cons.mp he' with heq | hmem
        · subst heq
          rw [hfind] at hfa'
          injection hfa' with hh
          subst hh
          have hsame := replace_find?_same l hids aid e'.questionId a hfind
            (patchAnswer now tid e' a) rfl
          rw [h4 e'.questionId hqe, hsame]
        · have hne : e'.questionId ≠ e.questionId := by
            intro hcon
            exact hqe (hcon ▸ List.mem_map_of_mem _ hmem)
          have hoth := replace_find?_other l hids aid e.questionId e'.questionId
            hne a hfind (patchAnswer now tid e a) rfl
          exact h3 e' hmem a' (by rw [hoth]; exact hfa')
      · intro q hq
        have hq1 : q ∉ es.map BulkEval.questionId := fun hc => hq (by simp [hc])
        have hqne : q ≠ e.questionId := fun hc => hq (by simp [hc])
        rw [h4 q hq1]
        exact replace_find?_other l hids aid e.questionId q hqne a hfind
          (patchAnswer now tid e a) rfl

theorem find?_replaceAttempt (l : List Attempt) (id0 : String)
    (att0 att : Attempt)
    (h : l.find? (fun a => a.id == id0) = some att0) (hid : att.id = att0.id) :
    (replaceAttempt l id0 att).find? (fun a => a.id == id0) = some att := by
  have hsat := List.find?_some h
  unfold replaceAttempt
  rw [List.find?_map]
  have hpf : ∀ b ∈ l,
      ((fun a => a.id == id0) ∘ fun a => if (a.id == id0) = true then att else a) b
        = (b.id == id0) := by
    intro b hb
    simp only [Function.comp_apply]
    by_cases hc : (b.id == id0) = true
    · rw [if_pos hc, hid, hsat, hc]
    · rw [if_neg hc]
  rw [find?_congr_mem hpf, h]
  show some (if (att0.id == id0) = true then att else att0) = some att
  rw [if_pos hsat]

/-- C7: for any bulk evaluation by the exam-owning teacher (on a database
whose answer ids are unique and a batch with distinct question ids),
entries without a matching `(attemptId, questionId)` answer are silently
skipped (the call still succeeds, returning the matched count); every
matched answer receives the entry's `marks`, its `feedback` when supplied,
`evaluatedBy = teacher` and `evaluatedAt = now`; answers for keys outside
the batch are untouched; and afterwards the attempt is `EVALUATED` with
`evaluatedBy = teacher` and `score` overwritten by the sum of the matched
entries' marks. -/
theorem C7_bulk_evaluation (db : Db) (now : ℤ) (attemptId teacherId : String)
    (evals : List BulkEval) (attempt : Attempt) (exam : Exam)
    (hids : (db.answers.map Answer.id).Nodup)
    (hqs : (evals.map BulkEval.questionId).Nodup)
    (hatt : db.attempts.find? (fun a => a.id == attemptId) = some attempt)
    (hexam : db.exams.find? (fun e => e.id == attempt.examId) = some exam)
    (hown : exam.teacherId = teacherId) :
    (bulkEvaluate db now attemptId teacherId evals).2 =
      .ok (countMatched db.answers attemptId evals) ∧
    (bulkEvaluate db now attemptId teacherId evals).1.attempts.find?
        (fun a => a.id == attemptId) =
      some { attempt with
              status := AttemptStatus.EVALUATED
              score := some (sumMatched db.answers attemptId evals)
              evaluatedBy := some teacherId } ∧
    (∀ e ∈ evals, ∀ a,
      db.answers.find? (bulkKey attemptId e.questionId) = some a →
      (bulkEvaluate db now attemptId teacherId evals).1.answers.find?
          (bulkKey attemptId e.questionId) = some (patchAnswer now teacherId e a)) ∧
    (∀ q, q ∉ evals.map BulkEval.questionId →
      (bulkEvaluate db now attemptId teacherId evals).1.answers.find?
          (bulkKey attemptId q) = db.answers.find? (bulkKey attemptId q)) := by
  obtain ⟨l', h1, h2, h3, h4⟩ :=
    bulkRun_noFault_spec now teacherId attemptId evals db.answers 0 0 0 hids hqs
  unfold bulkEvaluate bulkEvaluateF
  simp only [hatt, hexam, hown, bne_self_eq_false, Bool.false_eq_true, if_false,
    h1, noFault, zero_add]
  refine ⟨trivial, ?_, ?_, ?_⟩
  · exact find?_replaceAttempt db.attempts attemptId attempt _ hatt rfl
  · intro e he a hfa
    exact h3 e he a hfa
  · intro q hq
    exact h4 q hq

/-- C7 witness: the theorem applied to `dbC8` — both entries match, the
attempt row carries the matched sum as its overwritten score, and the `Q1`
answer row holds the patch. -/
theorem C7_bulk_evaluation_witness :
    (bulkEvaluate dbC8 9 "A1" "T1" evalsC8).2 =
      Except.ok (countMatched dbC8.answers "A1" evalsC8) ∧
    (bulkEvaluate dbC8 9 "A1" "T1" evalsC8).1.attempts.find?
        (fun a => a.id == "A1") =
      some { attC4 with
              status := AttemptStatus.EVALUATED
              score := some (sumMatched dbC8.answers "A1" evalsC8)
              evaluatedBy := some "T1" } ∧
    (bulkEvaluate dbC8 9 "A1" "T1" evalsC8).1.answers.find? (bulkKey "A1" "Q1") =
      some (patchAnswer 9 "T1" { questionId := "Q1", marks := 7 } ansC4) :=
  ⟨(C7_bulk_evaluation dbC8 9 "A1" "T1" evalsC8 attC4 examPaid
      (by decide) (by decide) rfl rfl rfl).1,
    (C7_bulk_evaluation dbC8 9 "A1" "T1" evalsC8 attC4 examPaid
      (by decide) (by decide) rfl rfl rfl).2.1,
    (C7_bulk_evaluation dbC8 9 "A1" "T1" evalsC8 attC4 examPaid
      (by decide) (by decide) rfl rfl rfl).2.2.1
      { questionId := "Q1", marks := 7 } (by decide) ansC4 rfl⟩

end Upsc
